import Mathlib

/-!
Verification of the kodi-recently-added integration
(`custom_components/kodi_next_up/entities.py`).

The Python code is shallowly embedded: JSON-like dynamic values are the
inductive `Value`, Python exceptions are `PyExc`, fallible code returns
`Except PyExc _`, and stateful methods pass an explicit entity state.
Floats are modelled as rationals (`ℚ`); `round(x, 1)` is round-half-even
to a multiple of 1/10, matching CPython's documented rounding mode (we do
not model binary-float representation error or signed zero).
-/

namespace KodiNextUp

/-- Dynamic (JSON-like) Python values, as they occur in RPC results. -/
inductive Value where
  | null
  | bool (b : Bool)
  | int (n : Int)
  | float (q : ℚ)
  | str (s : String)
  | list (xs : List Value)
  | dict (kvs : List (String × Value))

/-- Python exceptions that the embedded code can raise. -/
inductive PyExc where
  | keyError (k : String)
  | typeError
  | attributeError
deriving Repr, DecidableEq

/-- Python truthiness (`bool(v)`): None, False, 0, 0.0, "", [] and an empty
dict are falsy; everything else is truthy. -/
def truthy : Value → Bool
  | .null => false
  | .bool b => b
  | .int n => n != 0
  | .float q => q != 0
  | .str s => s != ""
  | .list xs => !xs.isEmpty
  | .dict kvs => !kvs.isEmpty

/-- Lookup in the association list backing a `Value.dict` (first match,
like a Python dict where keys are unique). -/
def lookupKV (kvs : List (String × Value)) (k : String) : Option Value :=
  match kvs.find? (fun p => p.1 == k) with
  | some p => some p.2
  | none => none

/-- `v[k]` on a mapping: `KeyError` when the key is absent, `TypeError`
when `v` is not a dict. -/
def pyGetItem (v : Value) (k : String) : Except PyExc Value :=
  match v with
  | .dict kvs =>
    match lookupKV kvs k with
    | some w => .ok w
    | none => .error (.keyError k)
  | _ => .error .typeError

/-- `v.get(k, default)`: `AttributeError` when `v` is not a dict (no `get`
attribute on lists, strings, numbers in this context). -/
def pyDictGet (v : Value) (k : String) (dflt : Value) : Except PyExc Value :=
  match v with
  | .dict kvs =>
    match lookupKV kvs k with
    | some w => .ok w
    | none => .ok dflt
  | _ => .error .attributeError

/-- `"%d" % v`: succeeds for ints, bools and floats, raises `TypeError`
otherwise (in particular for `None`, strings, mappings). -/
def formatD : Value → Except PyExc String
  | .int n => .ok (toString n)
  | .bool b => .ok (if b then "1" else "0")
  | .float q => .ok (toString ⌊q⌋)
  | _ => .error .typeError

/-- `v == 0` in Python: numeric comparison for ints, floats and bools,
`False` for every non-numeric value. -/
def pyEqZero : Value → Bool
  | .int n => n == 0
  | .float q => q == 0
  | .bool b => b == false
  | _ => false

/-- `v // 60` (floor division): `Int.fdiv` for ints, rational floor for
floats (Python returns an integral float there), `TypeError` otherwise. -/
def pyFloorDiv60 : Value → Except PyExc Value
  | .int n => .ok (.int (Int.fdiv n 60))
  | .bool b => .ok (.int (Int.fdiv (if b then 1 else 0) 60))
  | .float q => .ok (.float ((⌊q / 60⌋ : ℤ) : ℚ))
  | _ => .error .typeError

/-- Round-half-even of a rational to an integer (CPython's rounding for
`round`). -/
def roundHalfEven (q : ℚ) : Int :=
  let f : Int := ⌊q⌋
  let r : ℚ := q - (f : ℚ)
  if r < 1/2 then f
  else if (1:ℚ)/2 < r then f + 1
  else if f % 2 = 0 then f else f + 1

/-- `round(v, 1)`: ints and bools are returned as ints unchanged, floats
are rounded half-even to a multiple of 1/10, anything else raises
`TypeError`. -/
def pyRound1 : Value → Except PyExc Value
  | .int n => .ok (.int n)
  | .bool b => .ok (.int (if b then 1 else 0))
  | .float q => .ok (.float ((roundHalfEven (q * 10) : ℤ) / 10))
  | _ => .error .typeError

/-! ### Strings, UTF-8 and percent-encoding

`urllib.parse.quote`/`unquote` operate on the UTF-8 bytes of the string, so
we model bytes explicitly (as `Nat`s below 256). -/

/-- UTF-8 encoding of one scalar value. -/
def utf8EncodeChar (c : Char) : List Nat :=
  let n := c.toNat
  if n < 128 then [n]
  else if n < 2048 then [192 + n / 64, 128 + n % 64]
  else if n < 65536 then [224 + n / 4096, 128 + (n / 64) % 64, 128 + n % 64]
  else [240 + n / 262144, 128 + (n / 4096) % 64, 128 + (n / 64) % 64, 128 + n % 64]

/-- UTF-8 bytes of a string. -/
def strBytes (s : String) : List Nat :=
  s.data.flatMap utf8EncodeChar

/-- Is `b` a UTF-8 continuation byte? -/
def isCont (b : Nat) : Bool := 128 ≤ b && b ≤ 191

/-- The replacement character U+FFFD. -/
def replChar : Char := Char.ofNat 65533

/-- UTF-8 decoding with replacement of invalid bytes (`errors="replace"`;
only valid sequences occur on the code paths exercised here). Each step
consumes at least one byte, so fuel equal to the byte count suffices. -/
def utf8DecodeAux : Nat → List Nat → List Char
  | _, [] => []
  | 0, _ :: _ => []
  | fuel + 1, b :: rest =>
    if b < 128 then Char.ofNat b :: utf8DecodeAux fuel rest
    else if b < 194 then replChar :: utf8DecodeAux fuel rest
    else if b < 224 then
      match rest with
      | c1 :: rest1 =>
        if isCont c1 then Char.ofNat ((b - 192) * 64 + (c1 - 128)) :: utf8DecodeAux fuel rest1
        else replChar :: utf8DecodeAux fuel rest
      | [] => [replChar]
    else if b < 240 then
      match rest with
      | c1 :: c2 :: rest2 =>
        if isCont c1 && isCont c2 then
          Char.ofNat ((b - 224) * 4096 + (c1 - 128) * 64 + (c2 - 128)) :: utf8DecodeAux fuel rest2
        else replChar :: utf8DecodeAux fuel rest
      | _ => replChar :: utf8DecodeAux fuel rest
    else if b < 245 then
      match rest with
      | c1 :: c2 :: c3 :: rest3 =>
        if isCont c1 && isCont c2 && isCont c3 then
          Char.ofNat ((b - 240) * 262144 + (c1 - 128) * 4096 + (c2 - 128) * 64 + (c3 - 128))
            :: utf8DecodeAux fuel rest3
        else replChar :: utf8DecodeAux fuel rest
      | _ => replChar :: utf8DecodeAux fuel rest
    else replChar :: utf8DecodeAux fuel rest

/-- UTF-8 decoding of a byte list. -/
def utf8Decode (l : List Nat) : List Char := utf8DecodeAux l.length l

/-- Value of an ASCII hex-digit byte. -/
def hexVal (b : Nat) : Option Nat :=
  if 48 ≤ b && b ≤ 57 then some (b - 48)
  else if 65 ≤ b && b ≤ 70 then some (b - 55)
  else if 97 ≤ b && b ≤ 102 then some (b - 87)
  else none

/-- Replace `%XX` escapes by the named byte (byte 37 is `%`); a `%` not
followed by two hex digits stays literal, as in `urllib.parse.unquote`. -/
def percentDecode : List Nat → List Nat
  | [] => []
  | 37 :: h1 :: h2 :: rest2 =>
    match hexVal h1, hexVal h2 with
    | some a, some b => (a * 16 + b) :: percentDecode rest2
    | _, _ => 37 :: percentDecode (h1 :: h2 :: rest2)
  | b :: rest => b :: percentDecode rest

/-- `urllib.parse.unquote`: percent-decode the UTF-8 bytes, then decode. -/
def unquote (s : String) : String :=
  ⟨utf8Decode (percentDecode (strBytes s))⟩

/-- Bytes `urllib.parse.quote` never escapes: ASCII letters, digits and
`_.-~`. -/
def alwaysSafeByte (b : Nat) : Bool :=
  (65 ≤ b && b ≤ 90) || (97 ≤ b && b ≤ 122) || (48 ≤ b && b ≤ 57) ||
    b == 95 || b == 46 || b == 45 || b == 126

/-- Uppercase hex digit. -/
def hexDigitUpper (n : Nat) : Char :=
  if n < 10 then Char.ofNat (48 + n) else Char.ofNat (55 + n)

/-- Quote one byte: literal when safe, `%XX` otherwise. -/
def quoteByte (safe : List Nat) (b : Nat) : List Char :=
  if alwaysSafeByte b || safe.contains b then [Char.ofNat b]
  else ['%', hexDigitUpper (b / 16), hexDigitUpper (b % 16)]

/-- `urllib.parse.quote(s, safe=safe)` over the UTF-8 bytes of `s`. -/
def pyQuote (safe : String) (s : String) : String :=
  ⟨(strBytes s).flatMap (quoteByte (strBytes safe))⟩

/-- Python `s[8:]` (slicing counts code points). -/
def strDrop8 (s : String) : String := ⟨s.data.drop 8⟩

/-- Python `s.strip("/")`: drop leading and trailing slashes. -/
def stripSlashes (s : String) : String :=
  ⟨((s.data.dropWhile (· == '/')).reverse.dropWhile (· == '/')).reverse⟩

/-- `"\x7b:0>2\x7d".format(x)` for strings: pad on the left with `0` to
width 2. -/
def padLeft2 (s : String) : String :=
  if s.length < 2 then ⟨List.replicate (2 - s.length) '0' ++ s.data⟩ else s

/-- Python `repr`/`str` of the float `k / 10` (one decimal digit). -/
def tenthsRepr (k : Int) : String :=
  (if k < 0 then "-" else "") ++ toString (k.natAbs / 10) ++ "." ++ toString (k.natAbs % 10)

/-- Python `repr`/`str` of a float that is integral or a multiple of 1/10
(the only floats the embedded code produces: floor-divisions and values of
`round(x, 1)`). -/
def floatRepr (q : ℚ) : String :=
  if q.den = 1 then toString q.num ++ ".0"
  else if (q * 10).den = 1 then tenthsRepr (q * 10).num
  else toString q

/-- `"\x7b:0>2\x7d".format(v)`: numbers and strings format (via their
`str`, zero-padded), `None`, lists and dicts raise `TypeError`. -/
def formatPad2 : Value → Except PyExc String
  | .int n => .ok (padLeft2 (toString n))
  | .bool b => .ok (padLeft2 (if b then "1" else "0"))
  | .float q => .ok (padLeft2 (floatRepr q))
  | .str s => .ok (padLeft2 s)
  | _ => .error .typeError

/-- `str` of the result of `round(x, 1)` (an int or a float), as used by
the f-string that renders the rating. -/
def numRepr : Value → String
  | .int n => toString n
  | .float q => floatRepr q
  | _ => ""

/-! ### The entity (`KodiMediaEntity` / `KodiNextUpTVEntity`) -/

/-- Home Assistant state constants. -/
def STATE_ON : String := "on"
def STATE_OFF : String := "off"
def STATE_PROBLEM : String := "problem"
def STATE_UNKNOWN : String := "unknown"

/-- The connection configuration consumed by `KodiMediaEntity.__init__`. -/
structure KodiConfig where
  ssl : Bool
  username : Option String
  password : Option String
  host : String
  port : Nat

/-- The `base_web_url` computed in `__init__`: protocol from the TLS flag,
credentials only when both username and password are present. -/
def mkBaseWebUrl (c : KodiConfig) : String :=
  let protocol := if c.ssl then "https" else "http"
  let auth := match c.username, c.password with
    | some u, some p => u ++ ":" ++ p ++ "@"
    | _, _ => ""
  protocol ++ "://" ++ auth ++ c.host ++ ":" ++ toString c.port ++ "/image/image%3A%2F%2F"

/-- `path.lower().startswith("http")`: `startswith` is a prefix test on
the lowered string. `Char.toLower` lowers ASCII letters, which is all the
check ever distinguishes. -/
def startsWithHttpLower (s : String) : Bool :=
  List.isPrefixOf "http".data (s.data.map Char.toLower)

/-- `KodiMediaEntity.get_web_url`: absolute URLs pass through, relative
paths are double-percent-quoted (inner call with `safe=""`, outer with the
default `safe="/"`) and appended to the base URL. -/
def getWebUrl (base : String) (path : String) : String :=
  if startsWithHttpLower path then path
  else base ++ pyQuote "/" (pyQuote "" path)

/-- Instance fields of the entity. `update_method`, `properties` and
`result_key` are class attributes in the source; they are carried here so
that frame conditions about them can be stated. -/
structure Entity where
  base_web_url : String
  update_method : String
  properties : List String
  result_key : String
  data : Value
  state : Option String

/-- The fixed property list of `KodiNextUpTVEntity`. -/
def tvProperties : List String :=
  ["art", "episode", "fanart", "firstaired", "playcount", "rating",
   "runtime", "season", "showtitle", "title"]

/-- `KodiNextUpTVEntity.__init__`: empty data, no state, base URL from the
configuration, and the subclass's fixed method/properties/result key. -/
def initEntity (config : KodiConfig) : Entity :=
  { base_web_url := mkBaseWebUrl config
    update_method := "VideoLibrary.GetTVShows"
    properties := tvProperties
    result_key := "tvshows"
    data := .list []
    state := none }

/-- Outcome of the single RPC round trip `self.kodi.call_method(...)`.
`protocolError` carries the error object the handler reads from
`exc.args[2]["error"]` (`jsonrpc_base` raises `ProtocolError` with the
full response, which contains `"error"`, as `args[2]`). -/
inductive RpcOutcome where
  | ok (result : Value)
  | protocolError (error : Value)
  | transportError
  | otherError

/-- `KodiMediaEntity._handle_result`. The second component records whether
the call returned normally or raised: the `%d` interpolation of
`error.get("code")` in the log call raises `TypeError` for a missing or
non-numeric code (and `.get` itself raises `AttributeError` on a non-dict
result or error), all before the state assignment. -/
def handle_result (e : Entity) (result : Value) : Entity × Except PyExc Unit :=
  match pyDictGet result "error" Value.null with
  | .error exc => (e, .error exc)
  | .ok error =>
    if truthy error then
      match pyDictGet error "code" Value.null with
      | .error exc => (e, .error exc)
      | .ok code =>
        match formatD code with
        | .error exc => (e, .error exc)
        | .ok _ => ({ e with state := some STATE_PROBLEM }, .ok ())
    else
      match pyDictGet result e.result_key (Value.list []) with
      | .error exc => (e, .error exc)
      | .ok new_data =>
        if truthy new_data then
          ({ e with data := new_data, state := some STATE_ON }, .ok ())
        else
          ({ e with state := some STATE_UNKNOWN }, .ok ())

/-- `KodiMediaEntity.async_update` for one cycle. When the connection is
down the method returns before touching anything. A raised
`ProtocolError` or `TransportError` is caught and logged, leaving
`result = None`, so the trailing `else` sets the state to off; any other
exception sets off inside its handler and again via the trailing `else`.
A returned falsy result (e.g. `None` or `\x7b\x7d`) also yields off. -/
def async_update (e : Entity) (connected : Bool) (outcome : RpcOutcome) :
    Entity × Except PyExc Unit :=
  if !connected then (e, .ok ())
  else
    match outcome with
    | .ok result =>
      if truthy result then handle_result e result
      else ({ e with state := some STATE_OFF }, .ok ())
    | .protocolError _ => ({ e with state := some STATE_OFF }, .ok ())
    | .transportError => ({ e with state := some STATE_OFF }, .ok ())
    | .otherError => ({ e with state := some STATE_OFF }, .ok ())

/-! ### The card transform (`KodiNextUpTVEntity.extra_state_attributes`) -/

/-- The constant template record heading the card list. -/
def cardTemplate : Value :=
  .dict [("title_default", .str "$title"), ("line1_default", .str "$episode"),
         ("line2_default", .str "$firstaired"),
         ("line3_default", .str "$rating - $runtime"),
         ("line4_default", .str "$number"), ("icon", .str "mdi:eye-off")]

/-- `parse.unquote` requires a `str` argument (anything else raises). -/
def asStr : Value → Except PyExc String
  | .str s => .ok s
  | _ => .error .typeError

/-- `self.get_web_url(parse.unquote(a)[8:].strip("/"))`. -/
def resolveArt (base : String) (a : String) : String :=
  getWebUrl base (stripSlashes (strDrop8 (unquote a)))

/-- The per-row transform of the `for show in self.data` loop body,
with the source's evaluation order and the card keys in the source's
insertion order (`rating` is added after the literal, so it comes last). -/
def cardOfRow (base : String) (row : Value) : Except PyExc Value := do
  let title ← pyGetItem row "title"
  let playcount ← pyGetItem row "playcount"
  let flag := pyEqZero playcount
  let seasonS ← formatPad2 (← pyGetItem row "season")
  let episodeS ← formatPad2 (← pyGetItem row "episode")
  let runtimeMin ← pyFloorDiv60 (← pyGetItem row "runtime")
  let showtitle ← pyGetItem row "showtitle"
  let rounded ← pyRound1 (← pyGetItem row "rating")
  let ratingVal := if truthy rounded then Value.str ("★ " ++ numRepr rounded) else rounded
  let art ← pyGetItem row "art"
  let fanart ← pyDictGet art "tvshow.fanart" (.str "")
  let poster ← pyDictGet art "tvshow.poster" (.str "")
  let fanartVal ← if truthy fanart then do
      let fs ← asStr fanart
      pure (Value.str (resolveArt base fs))
    else pure (Value.str "")
  let posterVal ← if truthy poster then do
      let ps ← asStr poster
      pure (Value.str (resolveArt base ps))
    else pure (Value.str "")
  pure (Value.dict
    [("episode", title), ("fanart", fanartVal), ("flag", .bool flag),
     ("number", .str ("S" ++ seasonS ++ "E" ++ episodeS)),
     ("poster", posterVal), ("runtime", runtimeMin),
     ("title", showtitle), ("rating", ratingVal)])

/-- Iterating `self.data`; it is a list in every reachable state (TypeError
summarizes the failure iterating/indexing any other shape). -/
def pyIterList : Value → Except PyExc (List Value)
  | .list xs => .ok xs
  | _ => .error .typeError

/-- The loop appending one card per row to `card_json`. -/
def buildCards (base : String) : List Value → Except PyExc (List Value)
  | [] => .ok []
  | row :: rest => do
    let c ← cardOfRow base row
    let cs ← buildCards base rest
    pure (c :: cs)

/-! ### `json.dumps` (default separators, `ensure_ascii=True`) -/

/-- Lowercase hex digit. -/
def hexDigitLower (n : Nat) : Char :=
  if n < 10 then Char.ofNat (48 + n) else Char.ofNat (87 + n)

/-- Four lowercase hex digits. -/
def hex4 (n : Nat) : List Char :=
  [hexDigitLower (n / 4096 % 16), hexDigitLower (n / 256 % 16),
   hexDigitLower (n / 16 % 16), hexDigitLower (n % 16)]

/-- One character of a JSON string literal: the two-character escapes for
quote, backslash and common control characters, `\uXXXX` for other
control and all non-ASCII characters (with surrogate pairs beyond the
BMP), everything else literal. -/
def jsonEscapeChar (c : Char) : List Char :=
  if c = '"' then ['\\', '"']
  else if c = '\\' then ['\\', '\\']
  else if c = '\n' then ['\\', 'n']
  else if c = '\t' then ['\\', 't']
  else if c = '\r' then ['\\', 'r']
  else if c.toNat = 8 then ['\\', 'b']
  else if c.toNat = 12 then ['\\', 'f']
  else if c.toNat < 32 then '\\' :: 'u' :: hex4 c.toNat
  else if c.toNat < 127 then [c]
  else if c.toNat < 65536 then '\\' :: 'u' :: hex4 c.toNat
  else
    let n := c.toNat - 65536
    ('\\' :: 'u' :: hex4 (55296 + n / 1024)) ++ ('\\' :: 'u' :: hex4 (56320 + n % 1024))

/-- A JSON string literal. -/
def jsonStr (s : String) : String :=
  "\"" ++ ⟨s.data.flatMap jsonEscapeChar⟩ ++ "\""

mutual

/-- `json.dumps` of a value. -/
def jsonDumps : Value → String
  | .null => "null"
  | .bool b => if b then "true" else "false"
  | .int n => toString n
  | .float q => floatRepr q
  | .str s => jsonStr s
  | .list xs => "[" ++ jsonDumpsList xs ++ "]"
  | .dict kvs => "\x7b" ++ jsonDumpsKVs kvs ++ "\x7d"

/-- Comma-separated list items. -/
def jsonDumpsList : List Value → String
  | [] => ""
  | [x] => jsonDumps x
  | x :: y :: xs => jsonDumps x ++ ", " ++ jsonDumpsList (y :: xs)

/-- Comma-separated `"key": value` pairs. -/
def jsonDumpsKVs : List (String × Value) → String
  | [] => ""
  | [(k, v)] => jsonStr k ++ ": " ++ jsonDumps v
  | (k, v) :: p :: kvs => jsonStr k ++ ": " ++ jsonDumps v ++ ", " ++ jsonDumpsKVs (p :: kvs)

end

/-- `KodiNextUpTVEntity.extra_state_attributes`: the single attribute
`data`, holding `json.dumps` of the template followed by one card per
stored row. -/
def extra_state_attributes (e : Entity) : Except PyExc (List (String × String)) := do
  let rows ← pyIterList e.data
  let cards ← buildCards e.base_web_url rows
  pure [("data", jsonDumps (.list (cardTemplate :: cards)))]

/-! ### Well-formed rows and the spec-level card transform -/

/-- A well-formed raw row (the field shapes of §4.2 of the spec and of the
Kodi `VideoLibrary` API: string titles, integer counters, a float rating,
an artwork mapping with optional string entries). -/
structure WFRow where
  title : String
  showtitle : String
  season : Int
  episode : Int
  playcount : Int
  runtime : Int
  rating : ℚ
  fanart : Option String
  poster : Option String

/-- The artwork mapping of a well-formed row. -/
def WFRow.art (r : WFRow) : List (String × Value) :=
  (match r.fanart with | some f => [("tvshow.fanart", Value.str f)] | none => []) ++
  (match r.poster with | some p => [("tvshow.poster", Value.str p)] | none => [])

/-- The dynamic value carried by a well-formed row. -/
def WFRow.toValue (r : WFRow) : Value :=
  .dict [("title", .str r.title), ("showtitle", .str r.showtitle),
         ("season", .int r.season), ("episode", .int r.episode),
         ("playcount", .int r.playcount), ("runtime", .int r.runtime),
         ("rating", .float r.rating), ("art", .dict r.art)]

/-- Artwork resolution as the spec states it: absent (or empty) entry gives
the empty string, a present entry is percent-decoded once, stripped of the
8-character scheme prefix and of surrounding slashes, then resolved. -/
def artUrl (base : String) : Option String → String
  | some a => if a = "" then "" else resolveArt base a
  | none => ""

/-- The rendered rating: the value rounded to one decimal; the star string
when the rounded value is non-zero, the rounded (numeric) value itself
when it is zero. -/
def ratingRender (q : ℚ) : Value :=
  let rounded : ℚ := ((roundHalfEven (q * 10) : ℤ) : ℚ) / 10
  if rounded = 0 then .float rounded else .str ("★ " ++ floatRepr rounded)

/-- The card of a well-formed row, written as a direct record transform
(episode from `title`, show title from `showtitle`, zero-padded season and
episode number, floor runtime minutes, the unwatched flag, resolved
artwork). -/
def wfCard (base : String) (r : WFRow) : Value :=
  .dict [("episode", .str r.title),
         ("fanart", .str (artUrl base r.fanart)),
         ("flag", .bool (r.playcount == 0)),
         ("number", .str ("S" ++ padLeft2 (toString r.season) ++ "E" ++ padLeft2 (toString r.episode))),
         ("poster", .str (artUrl base r.poster)),
         ("runtime", .int (Int.fdiv r.runtime 60)),
         ("title", .str r.showtitle),
         ("rating", ratingRender r.rating)]

/-- Field access on a computed card. -/
def cardField (c : Except PyExc Value) (k : String) : Option Value :=
  match c with
  | .ok (.dict kvs) => lookupKV kvs k
  | _ => none

/-- An entity holding a given row list (any state reached by storing that
list). -/
def entityWithRows (cfg : KodiConfig) (rows : List Value) : Entity :=
  { initEntity cfg with data := .list rows }

/-! ### Update traces -/

/-- One polling cycle as seen from the entity: the connection flag at entry
and the outcome of the RPC call. -/
structure Cycle where
  connected : Bool
  outcome : RpcOutcome

/-- Run a sequence of update cycles. -/
def runUpdates (e : Entity) : List Cycle → Entity
  | [] => e
  | c :: rest => runUpdates (async_update e c.connected c.outcome).1 rest

/-- The row list delivered by a cycle when it is a successful non-empty
fetch (mirrors the branch of `_handle_result` that reaches
`self.data = new_data`), `none` for every other outcome. -/
def successRows (key : String) (c : Cycle) : Option Value :=
  if c.connected then
    match c.outcome with
    | .ok result =>
      if truthy result then
        match pyDictGet result "error" Value.null with
        | .ok errv =>
          if truthy errv then none
          else
            match pyDictGet result key (Value.list []) with
            | .ok rows => if truthy rows then some rows else none
            | .error _ => none
        | .error _ => none
      else none
    | _ => none
  else none

/-- The rows of the most recent successful non-empty fetch of a trace
(cycles are listed oldest first). -/
def lastSuccess (key : String) : List Cycle → Option Value
  | [] => none
  | c :: rest =>
    match lastSuccess key rest with
    | some v => some v
    | none => successRows key c

/-! ### Concrete inputs used by scenario checks -/

/-- A concrete configuration (`http://u:p@h:8080/...`). -/
def cfg0 : KodiConfig :=
  { ssl := false, username := some "u", password := some "p", host := "h", port := 8080 }

/-- Its base web URL. -/
def base0 : String := mkBaseWebUrl cfg0

/-- The row of Scenario A. -/
def rowA : WFRow :=
  { title := "Pilot", showtitle := "Show", season := 1, episode := 3,
    playcount := 0, runtime := 1500, rating := 867/100,
    fanart := some "image://%2Fpath%2Fto%2Fart.jpg/", poster := none }

/-- The row of Scenario E: rating exactly zero. -/
def rowE : WFRow :=
  { title := "Pilot", showtitle := "Show", season := 1, episode := 3,
    playcount := 0, runtime := 1500, rating := 0,
    fanart := none, poster := none }

/-- An entity that has stored Scenario A's row and reported `on` (a prior
successful cycle). -/
def entOn : Entity :=
  { initEntity cfg0 with data := .list [rowA.toValue], state := some STATE_ON }

/-- An RPC result whose error payload lacks the numeric `code` the log
format `%d` requires. -/
def resultBadError : Value := .dict [("error", .dict [("message", .str "boom")])]

/-- Scenario C's RPC result. -/
def resultErrC : Value :=
  .dict [("error", .dict [("code", .int (-1)), ("message", .str "boom")])]

/-- An RPC result with an empty rows list (Scenario B). -/
def resultEmptyRows : Value := .dict [("tvshows", .list [])]

/-- A successful non-empty RPC result. -/
def resultOkA : Value := .dict [("tvshows", .list [rowA.toValue])]

/-- An entity holding one malformed row (an empty mapping). -/
def entBadRow : Entity := { initEntity cfg0 with data := .list [Value.dict []] }

/-- A one-cycle trace with a successful non-empty fetch. -/
def trOk : List Cycle := [⟨true, .ok resultOkA⟩]

/-- Scenario A's expected card. -/
def cardA : Value :=
  .dict [("episode", .str "Pilot"),
         ("fanart", .str (getWebUrl base0 "path/to/art.jpg")),
         ("flag", .bool true), ("number", .str "S01E03"), ("poster", .str ""),
         ("runtime", .int 25), ("title", .str "Show"), ("rating", .str "★ 8.7")]

/-! ### Helper lemmas -/

/-- String append concatenates the character data. -/
lemma data_append (a b : String) : (a ++ b).data = a.data ++ b.data := rfl

/-- `_handle_result` never writes the construction-time fields. -/
lemma handle_result_frame (e : Entity) (result : Value) :
    (handle_result e result).1.base_web_url = e.base_web_url ∧
    (handle_result e result).1.update_method = e.update_method ∧
    (handle_result e result).1.properties = e.properties ∧
    (handle_result e result).1.result_key = e.result_key := by
  unfold handle_result
  repeat' split
  all_goals exact ⟨rfl, rfl, rfl, rfl⟩

/-- `async_update` never writes the construction-time fields. -/
lemma async_update_frame (e : Entity) (connected : Bool) (o : RpcOutcome) :
    (async_update e connected o).1.base_web_url = e.base_web_url ∧
    (async_update e connected o).1.update_method = e.update_method ∧
    (async_update e connected o).1.properties = e.properties ∧
    (async_update e connected o).1.result_key = e.result_key := by
  unfold async_update
  cases connected
  · simp
  · cases o
    case ok result =>
      by_cases h : truthy result = true
      · simpa [h] using handle_result_frame e result
      · simp [h]
    case protocolError err => simp
    case transportError => simp
    case otherError => simp

/-- `initEntity` fixes the result key. -/
lemma initEntity_key (cfg : KodiConfig) : (initEntity cfg).result_key = "tvshows" := rfl

/-- One update step changes the stored rows exactly when the cycle is a
successful non-empty fetch, and then to the fetched rows. -/
lemma step_data (e : Entity) (c : Bool) (o : RpcOutcome) :
    (async_update e c o).1.data = (successRows e.result_key ⟨c, o⟩).getD e.data := by
  unfold async_update successRows
  cases c
  · simp
  · cases o
    case ok result =>
      by_cases h : truthy result = true
      · simp only [h]
        unfold handle_result
        repeat' split
        all_goals simp_all
      · simp [h]
    all_goals simp

/-- One update step reports `on` only after a successful non-empty fetch,
or when it skipped or raised with the state already `on`. -/
lemma step_state_on (e : Entity) (c : Bool) (o : RpcOutcome)
    (h : (async_update e c o).1.state = some STATE_ON) :
    successRows e.result_key ⟨c, o⟩ ≠ none ∨ e.state = some STATE_ON := by
  unfold async_update handle_result at h
  unfold successRows
  cases c
  · right; simpa using h
  · cases o
    case ok result =>
      by_cases ht : truthy result = true
      · simp only [ht] at h ⊢
        simp only [Bool.not_true, if_false, reduceIte] at h ⊢
        repeat' split at h
        all_goals simp_all [STATE_OFF, STATE_ON, STATE_PROBLEM, STATE_UNKNOWN]
      · simp [ht] at h
        simp [STATE_OFF, STATE_ON] at h
    case protocolError err =>
      simp at h; simp [STATE_OFF, STATE_ON] at h
    case transportError =>
      simp at h; simp [STATE_OFF, STATE_ON] at h
    case otherError =>
      simp at h; simp [STATE_OFF, STATE_ON] at h

/-- The result key never changes along a trace. -/
lemma run_result_key (e : Entity) (tr : List Cycle) :
    (runUpdates e tr).result_key = e.result_key := by
  induction tr generalizing e with
  | nil => rfl
  | cons c rest ih =>
    rw [runUpdates, ih]
    exact (async_update_frame e c.connected c.outcome).2.2.2

/-- After a trace, the stored rows are those of the most recent successful
non-empty fetch, or the initial rows when there was none. -/
lemma run_data (e : Entity) (tr : List Cycle) :
    (runUpdates e tr).data = (lastSuccess e.result_key tr).getD e.data := by
  induction tr generalizing e with
  | nil => rfl
  | cons c rest ih =>
    rw [runUpdates, ih, lastSuccess]
    rw [(async_update_frame e c.connected c.outcome).2.2.2]
    rw [step_data]
    cases hls : lastSuccess e.result_key rest <;> simp [hls]

/-- A trace ends in state `on` only if it contains a successful non-empty
fetch, or started in state `on`. -/
lemma run_state_on (e : Entity) (tr : List Cycle)
    (h : (runUpdates e tr).state = some STATE_ON) :
    lastSuccess e.result_key tr ≠ none ∨ e.state = some STATE_ON := by
  induction tr generalizing e with
  | nil => right; exact h
  | cons c rest ih =>
    rw [runUpdates] at h
    rcases ih _ h with h1 | h1
    · left
      rw [(async_update_frame e c.connected c.outcome).2.2.2] at h1
      unfold lastSuccess
      cases hls : lastSuccess e.result_key rest <;> simp [hls] at h1 ⊢
    · rcases step_state_on e c.connected c.outcome h1 with h2 | h2
      · left
        unfold lastSuccess
        cases hls : lastSuccess e.result_key rest <;> simp [hls]
        exact h2
      · right; exact h2

/-- A trace without successful fetches has no last success. -/
lemma lastSuccess_none_of_all (key : String) (tr : List Cycle)
    (h : ∀ c ∈ tr, successRows key c = none) : lastSuccess key tr = none := by
  induction tr with
  | nil => rfl
  | cons c rest ih =>
    unfold lastSuccess
    rw [ih (fun x hx => h x (List.mem_cons_of_mem _ hx)), h c (List.mem_cons_self _ _)]

/-- A successful fetch delivers truthy (non-empty) rows. -/
lemma successRows_truthy (key : String) (c : Cycle) (v : Value)
    (h : successRows key c = some v) : truthy v = true := by
  unfold successRows at h
  repeat' split at h
  all_goals simp_all

/-- The rows of the most recent successful fetch are truthy. -/
lemma lastSuccess_truthy (key : String) (tr : List Cycle) (v : Value)
    (h : lastSuccess key tr = some v) : truthy v = true := by
  induction tr with
  | nil => simp [lastSuccess] at h
  | cons c rest ih =>
    unfold lastSuccess at h
    cases hls : lastSuccess key rest with
    | some w => rw [hls] at h; exact ih (hls.trans (by injection h with h2; rw [h2]))
    | none => rw [hls] at h; exact successRows_truthy key c v h

/-- Binding an `ok` value runs the continuation. -/
lemma ok_bind {α β : Type} (a : α) (f : α → Except PyExc β) :
    (Except.ok a >>= f) = f a := rfl

/-- `pure` of the `Except` monad is `ok`. -/
lemma pure_eq_ok {α : Type} (a : α) : (pure a : Except PyExc α) = .ok a := rfl

-- The loop body on a well-formed row succeeds and produces exactly the
-- direct record transform.
set_option maxHeartbeats 2000000 in
lemma cardOfRow_wf (base : String) (r : WFRow) :
    cardOfRow base r.toValue = .ok (wfCard base r) := by
  rcases r with ⟨t, st, se, ep, pc, rt, ra, fa, po⟩
  cases fa <;> cases po <;>
    by_cases hq : ((roundHalfEven (ra * 10) : ℤ) : ℚ) / 10 = 0 <;>
      simp +decide [cardOfRow, WFRow.toValue, WFRow.art, wfCard, artUrl, ratingRender,
        pyGetItem, lookupKV, pyDictGet, formatPad2, pyFloorDiv60, pyRound1, pyEqZero,
        truthy, asStr, numRepr, hq, ite_not, ok_bind, pure_eq_ok] <;>
      split_ifs <;> rfl

/-- The loop over well-formed rows builds one card per row, in order. -/
lemma buildCards_wf (base : String) (rows : List WFRow) :
    buildCards base (rows.map WFRow.toValue) = .ok (rows.map (wfCard base)) := by
  induction rows with
  | nil => rfl
  | cons r rest ih =>
    simp [buildCards, cardOfRow_wf, ih, ok_bind, pure_eq_ok]

/-- The base web URL starts with `http` for every configuration (its
protocol is `http` or `https`), so appending anything to it yields a
string the absolute-URL check accepts. -/
lemma base_http (cfg : KodiConfig) (s : String) :
    startsWithHttpLower (mkBaseWebUrl cfg ++ s) = true := by
  rcases cfg with ⟨ssl, un, pw, host, port⟩
  unfold startsWithHttpLower mkBaseWebUrl
  cases ssl <;> rcases un with _ | u <;> rcases pw with _ | p <;>
    simp [data_append, List.isPrefixOf]

/-! ### Claims -/

/-- C1 (as amended): for every well-formed row, the card's rating field is
the rounded numeric value itself (a float `0.0`) when the rating rounds to
zero — not the empty string — and the star glyph followed by the rounded
value when it rounds to non-zero. -/
theorem C1_theorem (base : String) (r : WFRow) :
    cardField (cardOfRow base r.toValue) "rating" = some (ratingRender r.rating) := by
  rw [cardOfRow_wf]
  simp [cardField, wfCard, lookupKV]

set_option maxHeartbeats 4000000 in
/-- C1 counterexample: on Scenario E's row (rating exactly 0.0) the
rendered rating field is the numeric zero, which is not the empty
string the claim requires. -/
theorem C1_counterexample :
    cardField (cardOfRow base0 rowE.toValue) "rating" = some (Value.float 0) ∧
    Value.float 0 ≠ Value.str "" :=
  ⟨by with_unfolding_all rfl, fun h => Value.noConfusion h⟩

set_option maxHeartbeats 4000000 in
/-- C2 (as amended): for every stored list of well-formed rows the `data`
attribute is the JSON dump of the constant template followed by one
transformed card per row (so 1 + n entries), and Scenario A's row maps to
the concrete card whose fanart resolves through
`get_web_url("path/to/art.jpg")` — the slash-stripped path. -/
theorem C2_theorem (cfg : KodiConfig) (rows : List WFRow) :
    extra_state_attributes (entityWithRows cfg (rows.map WFRow.toValue)) =
      .ok [("data", jsonDumps (.list (cardTemplate :: rows.map (wfCard (mkBaseWebUrl cfg)))))] ∧
    (cardTemplate :: rows.map (wfCard (mkBaseWebUrl cfg))).length = 1 + rows.length ∧
    cardOfRow base0 rowA.toValue = .ok cardA := by
  refine ⟨?_, ?_, ?_⟩
  · simp [extra_state_attributes, entityWithRows, initEntity, pyIterList,
          buildCards_wf, ok_bind, pure_eq_ok]
  · simp [Nat.add_comm]
  · with_unfolding_all rfl

set_option maxHeartbeats 4000000 in
/-- C2 counterexample: Scenario A's fanart is resolved from the path with
the surrounding slashes stripped, so it differs from the claim's
`get_web_url("/path/to/art.jpg")`. -/
theorem C2_counterexample :
    cardField (cardOfRow base0 rowA.toValue) "fanart" =
      some (.str (getWebUrl base0 "path/to/art.jpg")) ∧
    getWebUrl base0 "path/to/art.jpg" ≠ getWebUrl base0 "/path/to/art.jpg" :=
  ⟨by with_unfolding_all rfl, by decide⟩

/-- C3 (as amended): a truthy result with no (or falsy) error field and an
absent-or-empty rows list sets the state to `unknown` and leaves the
stored rows unchanged (they are not cleared). -/
theorem C3_theorem (e : Entity) (result errv rows : Value)
    (h1 : truthy result = true)
    (h2 : pyDictGet result "error" Value.null = .ok errv)
    (h3 : truthy errv = false)
    (h4 : pyDictGet result e.result_key (Value.list []) = .ok rows)
    (h5 : truthy rows = false) :
    async_update e true (.ok result) = ({ e with state := some STATE_UNKNOWN }, .ok ()) := by
  simp [async_update, handle_result, h1, h2, h3, h4, h5]

/-- C3 witness: Scenario B's empty result on an entity holding one row. -/
theorem C3_witness :
    truthy resultEmptyRows = true ∧
    async_update entOn true (.ok resultEmptyRows) =
      ({ entOn with state := some STATE_UNKNOWN }, .ok ()) :=
  ⟨rfl, C3_theorem entOn resultEmptyRows Value.null (Value.list []) rfl rfl rfl rfl rfl⟩

/-- C3 counterexample: after the empty fetch the stored rows are still the
previous non-empty list, not the empty list the claim requires. -/
theorem C3_counterexample :
    (async_update entOn true (.ok resultEmptyRows)).1.data = Value.list [rowA.toValue] ∧
    Value.list [rowA.toValue] ≠ Value.list [] := by
  refine ⟨rfl, fun h => ?_⟩
  injection h with h2
  cases h2

/-- C4 (as amended): every exception raised by the RPC call itself is
caught — the update completes normally for protocol, transport and
unexpected failures alike, with only a state transition. (Result handling
on a malformed error payload and the attribute read on a malformed row can
still raise, see the counterexample.) -/
theorem C4_theorem (e : Entity) (connected : Bool) (err : Value) :
    (async_update e connected .transportError).2 = .ok () ∧
    (async_update e connected (.protocolError err)).2 = .ok () ∧
    (async_update e connected .otherError).2 = .ok () := by
  cases connected <;> exact ⟨rfl, rfl, rfl⟩

/-- C4 counterexample: the display-attribute read propagates a `KeyError`
on a row without a `title`, and result handling propagates a `TypeError`
when the error payload has no numeric code — both contradict "never
propagates an exception". -/
theorem C4_counterexample :
    extra_state_attributes entBadRow = .error (PyExc.keyError "title") ∧
    (async_update entOn true (.ok resultBadError)).2 = .error PyExc.typeError :=
  ⟨rfl, rfl⟩

/-- C5 (confirmed): a truthy result with no (or falsy) error field and a
non-empty rows list at the result key sets the state to `on` and replaces
the stored rows with exactly that list. -/
theorem C5_theorem (e : Entity) (result errv : Value) (rows : List Value)
    (h1 : truthy result = true)
    (h2 : pyDictGet result "error" Value.null = .ok errv)
    (h3 : truthy errv = false)
    (h4 : pyDictGet result e.result_key (Value.list []) = .ok (.list rows))
    (h5 : rows ≠ []) :
    async_update e true (.ok result) =
      ({ e with data := .list rows, state := some STATE_ON }, .ok ()) := by
  cases rows with
  | nil => exact absurd rfl h5
  | cons a as =>
    simp [async_update, handle_result, h1, h2, h3, h4,
          show truthy (Value.list (a :: as)) = true from rfl]

/-- C5 witness: a successful one-row fetch from the initial state. -/
theorem C5_witness :
    truthy resultOkA = true ∧
    async_update (initEntity cfg0) true (.ok resultOkA) =
      ({ initEntity cfg0 with data := .list [rowA.toValue], state := some STATE_ON }, .ok ()) :=
  ⟨rfl, C5_theorem (initEntity cfg0) resultOkA Value.null [rowA.toValue] rfl rfl rfl rfl
    (by simp)⟩

/-- C6 (as amended): a result whose error field is set *and carries a
code the `%d` log format accepts* yields state `problem` with the stored
rows unchanged; a malformed error payload instead raises before the state
assignment (see the counterexample). -/
theorem C6_theorem (e : Entity) (result errv codev : Value) (s : String)
    (h1 : truthy result = true)
    (h2 : pyDictGet result "error" Value.null = .ok errv)
    (h3 : truthy errv = true)
    (h4 : pyDictGet errv "code" Value.null = .ok codev)
    (h5 : formatD codev = .ok s) :
    async_update e true (.ok result) = ({ e with state := some STATE_PROBLEM }, .ok ()) := by
  simp [async_update, handle_result, h1, h2, h3, h4, h5]

/-- C6 witness: Scenario C's error payload `code -1, message "boom"`. -/
theorem C6_witness :
    truthy resultErrC = true ∧
    async_update entOn true (.ok resultErrC) =
      ({ entOn with state := some STATE_PROBLEM }, .ok ()) :=
  ⟨rfl, C6_theorem entOn resultErrC
    (Value.dict [("code", .int (-1)), ("message", .str "boom")]) (.int (-1)) "-1"
    rfl rfl rfl rfl rfl⟩

/-- C6 counterexample: with the error field set but no numeric code, the
update raises `TypeError` and the state stays `on` instead of becoming
`problem`. -/
theorem C6_counterexample :
    (async_update entOn true (.ok resultBadError)).1.state = some STATE_ON ∧
    (async_update entOn true (.ok resultBadError)).2 = .error PyExc.typeError ∧
    STATE_ON ≠ STATE_PROBLEM :=
  ⟨rfl, rfl, by decide⟩

/-- C7 (confirmed): a transport-level or protocol-level RPC failure sets
the state to `off` and leaves the stored rows unchanged, from any prior
state. -/
theorem C7_theorem (e : Entity) (err : Value) :
    async_update e true .transportError = ({ e with state := some STATE_OFF }, .ok ()) ∧
    async_update e true (.protocolError err) = ({ e with state := some STATE_OFF }, .ok ()) ∧
    (async_update e true .transportError).1.data = e.data ∧
    (async_update e true (.protocolError err)).1.data = e.data :=
  ⟨rfl, rfl, rfl, rfl⟩

/-- C8 (confirmed): along any trace from construction, if no cycle was a
successful non-empty fetch the stored rows are empty and the state is
never `on`; and state `on` implies the stored rows are exactly the
(truthy, hence non-empty) rows of the most recent successful fetch. -/
theorem C8_theorem (cfg : KodiConfig) (tr : List Cycle) :
    ((∀ c ∈ tr, successRows "tvshows" c = none) →
      (runUpdates (initEntity cfg) tr).data = Value.list [] ∧
      (runUpdates (initEntity cfg) tr).state ≠ some STATE_ON) ∧
    ((runUpdates (initEntity cfg) tr).state = some STATE_ON →
      ∃ rows, lastSuccess "tvshows" tr = some rows ∧
        (runUpdates (initEntity cfg) tr).data = rows ∧ truthy rows = true) := by
  constructor
  · intro hall
    have hls := lastSuccess_none_of_all "tvshows" tr hall
    constructor
    · rw [run_data, initEntity_key, hls]; rfl
    · intro hstate
      rcases run_state_on _ _ hstate with h1 | h1
      · rw [initEntity_key] at h1; exact h1 hls
      · simp [initEntity] at h1
  · intro hstate
    rcases run_state_on _ _ hstate with h1 | h1
    · rw [initEntity_key] at h1
      rcases Option.ne_none_iff_exists'.mp h1 with ⟨v, hv⟩
      exact ⟨v, hv, by rw [run_data, initEntity_key, hv]; rfl,
        lastSuccess_truthy "tvshows" tr v hv⟩
    · simp [initEntity] at h1

/-- C8 witness: the empty trace (no fetch: empty rows, not `on`), and a
one-cycle successful trace realizing the `on` case. -/
theorem C8_witness :
    ((runUpdates (initEntity cfg0) []).data = Value.list [] ∧
      (runUpdates (initEntity cfg0) []).state ≠ some STATE_ON) ∧
    (∃ rows, lastSuccess "tvshows" trOk = some rows ∧
      (runUpdates (initEntity cfg0) trOk).data = rows ∧ truthy rows = true) :=
  ⟨(C8_theorem cfg0 []).1 (by simp), (C8_theorem cfg0 trOk).2 (by rfl)⟩

/-- C9 (confirmed): `get_web_url` returns a path with case-insensitive
prefix `http` unchanged, and it is idempotent for every path and
configuration — the produced URL always starts with the base URL's
`http`/`https` protocol, so a second application changes nothing. -/
theorem C9_theorem (cfg : KodiConfig) (p : String) :
    (startsWithHttpLower p = true → getWebUrl (mkBaseWebUrl cfg) p = p) ∧
    getWebUrl (mkBaseWebUrl cfg) (getWebUrl (mkBaseWebUrl cfg) p) =
      getWebUrl (mkBaseWebUrl cfg) p := by
  constructor
  · intro h; simp [getWebUrl, h]
  · by_cases h : startsWithHttpLower p = true
    · simp [getWebUrl, h]
    · simp [getWebUrl, h, base_http]

/-- C9 witness: an absolute URL passes through unchanged, and a relative
path resolved once is a fixed point of a second resolution. -/
theorem C9_witness :
    getWebUrl (mkBaseWebUrl cfg0) "http://x" = "http://x" ∧
    getWebUrl (mkBaseWebUrl cfg0) (getWebUrl (mkBaseWebUrl cfg0) "a/b") =
      getWebUrl (mkBaseWebUrl cfg0) "a/b" :=
  ⟨(C9_theorem cfg0 "http://x").1 (by decide), (C9_theorem cfg0 "a/b").2⟩

/-- C10 (confirmed): every update cycle — skipped, failed, or successful —
writes only `data` and `state`: `base_web_url`, `update_method`,
`properties` and `result_key` are unchanged. (The display-attribute read,
`extra_state_attributes`, is a pure function of the entity in this
embedding, mirroring that the source method writes no instance field.) -/
theorem C10_theorem (e : Entity) (connected : Bool) (o : RpcOutcome) :
    (async_update e connected o).1.base_web_url = e.base_web_url ∧
    (async_update e connected o).1.update_method = e.update_method ∧
    (async_update e connected o).1.properties = e.properties ∧
    (async_update e connected o).1.result_key = e.result_key :=
  async_update_frame e connected o

end KodiNextUp
